import Mathlib

set_option maxRecDepth 100000

/-
Verification development for `run.py`, a LaTeX build/reporting script.

The script's core pieces are embedded shallowly:
  * a small matching engine for the flat regular expressions the script uses
    (`re.finditer` / `re.findall` / `re.search` over single lines or file
    contents); patterns are token lists (literal, `.`/`\w`/`\d` classes with
    `+`/`*`, and the negative lookahead `(?!...)` on one character),
    with Python's leftmost-greedy semantics and non-overlapping scanning;
  * `parse_warnings` / `count_and_display_warnings` (the log analyzer):
    record lists are modelled by their per-category record counts, since the
    classification contract concerns which lines produce records;
    `re.IGNORECASE` is modelled by ASCII case-folding of the scanned line
    (every pattern literal in the script is ASCII);
  * `count_equations_detailed` and `count_figures_and_tables` (the pattern
    extractor), over a list of readable-or-failing files
    (`Option` content models the per-file try/except);
  * `compile_main_tex` and the exit-code logic of `main` (the process
    supervisor), over an environment giving the facts the code branches on:
    existence of `main.tex`, the external process's running time and exit
    code, and existence of the output PDF.

Strings are worked with as `List Char` (`String.toList` images), matching
Python's view of `str` as a character sequence.
-/

/-- Tokens of the flat regular expressions used by `run.py`.  `lit` is a
literal run, `one`/`star` are a character class matched once / zero-or-more
times (`+` is `one` followed by `star`), and `notNext` is a zero-width
negative lookahead on a single character class. -/
inductive Tok where
  | lit (cs : List Char)
  | one (cls : Char → Bool)
  | star (cls : Char → Bool)
  | notNext (cls : Char → Bool)

/-- Zero-width test used by `notNext`: succeeds at end of input or when the
next character is not in the class. -/
def lookNeg (cls : Char → Bool) : List Char → Bool
  | [] => true
  | c :: _ => !cls c

/-- Fuelled anchored matcher: `matchEndF fuel ts s` returns the length of the
leftmost-greedy match of the token list `ts` against a prefix of `s`
(greedy with backtracking, as in Python's `re`), or `none`.  Each recursive
call decreases `s.length + ts.length`, so fuel `s.length + ts.length + 1`
is always sufficient. -/
def matchEndF : Nat → List Tok → List Char → Option Nat
  | 0, _, _ => none
  | _ + 1, [], _ => some 0
  | fuel + 1, .lit l :: ts, s =>
      if l.isPrefixOf s then (matchEndF fuel ts (s.drop l.length)).map (· + l.length) else none
  | fuel + 1, .one cls :: ts, s =>
      match s with
      | [] => none
      | c :: r => if cls c then (matchEndF fuel ts r).map (· + 1) else none
  | fuel + 1, .notNext cls :: ts, s =>
      if lookNeg cls s then matchEndF fuel ts s else none
  | fuel + 1, .star cls :: ts, s =>
      match s with
      | [] => matchEndF fuel ts []
      | c :: r =>
          if cls c then ((matchEndF fuel (.star cls :: ts) r).map (· + 1)) <|> matchEndF fuel ts (c :: r)
          else matchEndF fuel ts (c :: r)

/-- Anchored match at the start of `s` with adequate fuel. -/
def matchEnd (ts : List Tok) (s : List Char) : Option Nat :=
  matchEndF (s.length + ts.length + 1) ts s

/-- Fuelled scanner counting non-overlapping matches left to right, resuming
after each match's end (Python `re.finditer` / `re.findall` length). -/
def scanCountF : Nat → List Tok → List Char → Nat
  | 0, _, _ => 0
  | fuel + 1, p, s =>
      match matchEnd p s with
      | some n => 1 + scanCountF fuel p (s.drop (n.max 1))
      | none =>
          match s with
          | [] => 0
          | _ :: r => scanCountF fuel p r

/-- Number of non-overlapping matches of `p` in `s`. -/
def scanCount (p : List Tok) (s : List Char) : Nat :=
  scanCountF (s.length + 1) p s

/-- Fuelled existence search (Python `re.search` viewed as a boolean). -/
def searchF : Nat → List Tok → List Char → Bool
  | 0, _, _ => false
  | fuel + 1, p, s =>
      (matchEnd p s).isSome ||
        (match s with
         | [] => false
         | _ :: r => searchF fuel p r)

/-- Whether `p` matches anywhere in `s`. -/
def search (p : List Tok) (s : List Char) : Bool :=
  searchF (s.length + 1) p s

/-- Number of non-overlapping occurrences of the literal `t` in `s`
(`len(re.findall(escaped_literal, s))`). -/
def countTok (t : List Char) (s : List Char) : Nat :=
  scanCount [Tok.lit t] s

/-- Whitespace stripped by Python's `str.strip` (ASCII part). -/
def pySpace (c : Char) : Bool :=
  (c.toNat == 32) || (c.toNat == 9) || (c.toNat == 10) ||
    (c.toNat == 13) || (c.toNat == 11) || (c.toNat == 12)

/-- ASCII case-folding of a character, the effect of `re.IGNORECASE` on the
script's all-ASCII patterns. -/
def lowerChar (c : Char) : Char :=
  if 65 ≤ c.toNat ∧ c.toNat ≤ 90 then Char.ofNat (c.toNat + 32) else c

/-- ASCII case-folding of a character sequence. -/
def lowerStr (l : List Char) : List Char :=
  l.map lowerChar

/-- Python `str.strip`: drop leading and trailing whitespace. -/
def pyStrip (l : List Char) : List Char :=
  ((l.dropWhile pySpace).reverse.dropWhile pySpace).reverse

/-- Python `str.split('\n')`. -/
def splitLines : List Char → List (List Char)
  | [] => [[]]
  | c :: r =>
      if c = '\n' then [] :: splitLines r
      else
        match splitLines r with
        | [] => [[c]]
        | l :: ls => (c :: l) :: ls

/-- The class matched by `.` (no `re.DOTALL` in the log patterns). -/
def anyCh (c : Char) : Bool := c != '\n'

/-- The class matched by `\w` (ASCII word characters). -/
def wordCh (c : Char) : Bool := c.isAlphanum || c == '_'

/-- The class matched by `\d`. -/
def digitCh (c : Char) : Bool := c.isDigit

/-- The character class holding exactly `*`. -/
def starCls (c : Char) : Bool := c == '*'

/-- An apostrophe character (U+0027), used in the undefined-reference and
undefined-citation patterns. -/
def apos : Char := Char.ofNat 39

/-- Tokens for `(.+)`. -/
def dotPlus : List Tok := [Tok.one anyCh, Tok.star anyCh]

/-- The `warning_patterns` list of `parse_warnings`, case-folded. -/
def warningPatterns : List (List Tok) :=
  [ [Tok.lit "latex warning: ".toList] ++ dotPlus,
    [Tok.lit "package ".toList, Tok.one wordCh, Tok.star wordCh,
      Tok.lit " warning: ".toList] ++ dotPlus,
    [Tok.lit "warning--".toList] ++ dotPlus,
    [Tok.lit "latex warning: reference `".toList] ++ dotPlus ++
      [Tok.lit (apos :: " on page ".toList), Tok.one digitCh, Tok.star digitCh,
        Tok.lit " undefined".toList],
    [Tok.lit "latex warning: citation `".toList] ++ dotPlus ++
      [Tok.lit (apos :: " on page ".toList), Tok.one digitCh, Tok.star digitCh,
        Tok.lit " undefined".toList],
    [Tok.lit "package hyperref warning: ".toList] ++ dotPlus,
    [Tok.lit "package babel warning: ".toList] ++ dotPlus,
    [Tok.lit "package inputenc warning: ".toList] ++ dotPlus,
    [Tok.lit "package fancyhdr warning: ".toList] ++ dotPlus,
    [Tok.lit "package geometry warning: ".toList] ++ dotPlus ]

/-- The `auxiliary_patterns` list (overfull/underfull box notices), case-folded. -/
def auxPatterns : List (List Tok) :=
  [ [Tok.lit "overfull \\hbox".toList] ++ dotPlus,
    [Tok.lit "underfull \\hbox".toList] ++ dotPlus,
    [Tok.lit "overfull \\vbox".toList] ++ dotPlus,
    [Tok.lit "underfull \\vbox".toList] ++ dotPlus ]

/-- The `exclude_patterns` list (informational lines), case-folded. -/
def excludePatterns : List (List Tok) :=
  [ [Tok.lit "latex font info:".toList],
    [Tok.lit "package ".toList, Tok.star anyCh, Tok.lit " info:".toList],
    [Tok.lit "file: ".toList, Tok.star anyCh, Tok.lit " graphic file".toList],
    [Tok.lit "document class:".toList],
    [Tok.lit "\\openout".toList, Tok.one digitCh, Tok.star digitCh],
    [Tok.lit "for additional information on amsmath".toList] ]

/-- Normalisation `parse_warnings` applies to a physical line before
classification: `line.strip()`, then ASCII case-folding standing in for the
`re.IGNORECASE` flag on every subsequent pattern test. -/
def prepLine (raw : List Char) : List Char :=
  lowerStr (pyStrip raw)

/-- Classification of one physical log line by `parse_warnings`, as the pair
(number of Warning records, number of AuxiliaryLayoutNotice records) the line
contributes: excluded lines contribute nothing; otherwise every auxiliary
match is an auxiliary record and, only when there was none, every warning
match is a warning record. -/
def classifyLine (raw : List Char) : Nat × Nat :=
  let line := prepLine raw
  if excludePatterns.any (fun p => search p line) then (0, 0)
  else
    let auxCount := (auxPatterns.map (fun p => scanCount p line)).sum
    if auxCount ≠ 0 then (0, auxCount)
    else ((warningPatterns.map (fun p => scanCount p line)).sum, 0)

/-- `parse_warnings`: split the log on newlines and classify every line;
the result is (total Warning records, total AuxiliaryLayoutNotice records). -/
def parse_warnings (log : List Char) : Nat × Nat :=
  let ls := splitLines log
  ((ls.map (fun l => (classifyLine l).1)).sum,
    (ls.map (fun l => (classifyLine l).2)).sum)

/-- `count_and_display_warnings`: a missing `output/main.log` (modelled by
`none`) yields `(0, 0)` without raising; otherwise the log is parsed. -/
def count_and_display_warnings (log : Option (List Char)) : Nat × Nat :=
  match log with
  | none => (0, 0)
  | some content => parse_warnings content

/-- Split `s` around the first occurrence of the literal `t`: returns the text
before the occurrence and the text after it. -/
def splitFirst (t : List Char) : List Char → Option (List Char × List Char)
  | [] => if t.isPrefixOf ([] : List Char) then some ([], []) else none
  | c :: r =>
      if t.isPrefixOf (c :: r) then some ([], (c :: r).drop t.length)
      else (splitFirst t r).map (fun p => (c :: p.1, p.2))

/-- Fuelled extraction of the inner spans of `re.findall(open(.*?)close, s,
re.DOTALL)`: leftmost opener, then the nearest closer (non-greedy inner span),
then resume after the closer. -/
def extractSpansF : Nat → List Char → List Char → List Char → List (List Char)
  | 0, _, _, _ => []
  | fuel + 1, openT, closeT, s =>
      match splitFirst openT s with
      | none => []
      | some (_, afterOpen) =>
          match splitFirst closeT afterOpen with
          | none => []
          | some (span, afterClose) => span :: extractSpansF fuel openT closeT afterClose

/-- Inner spans of every non-greedy `open ... close` container block in `s`. -/
def extractSpans (openT closeT : List Char) (s : List Char) : List (List Char) :=
  extractSpansF (s.length + 1) openT closeT s

/-- The per-container classification loop shared by the figure/table/plot/TikZ
analyses: for each container span, count its sub-elements with `cnt`; a
positive count increments the "with" tally and accumulates into the total,
zero increments the "without" tally.  Result: (with, without, total). -/
def classifySpans (cnt : List Char → Nat) : List (List Char) → Nat × Nat × Nat
  | [] => (0, 0, 0)
  | sp :: rest =>
      let acc := classifySpans cnt rest
      let c := cnt sp
      if c > 0 then (acc.1 + 1, acc.2.1, acc.2.2 + c) else (acc.1, acc.2.1 + 1, acc.2.2)

/-- Fuelled count of `re.findall(r'\addplot|\plot(?!s)', s)`: at each position
the first alternative is preferred, and the second carries a negative
lookahead excluding a following `s`. -/
def countPlotCmdsF : Nat → List Char → Nat
  | 0, _ => 0
  | fuel + 1, s =>
      if "\\addplot".toList.isPrefixOf s then 1 + countPlotCmdsF fuel (s.drop 8)
      else if "\\plot".toList.isPrefixOf s ∧ lookNeg (fun c => c == 's') (s.drop 5) then
        1 + countPlotCmdsF fuel (s.drop 5)
      else
        match s with
        | [] => 0
        | _ :: r => countPlotCmdsF fuel r

/-- Number of plot-drawing commands in a TikZ picture span. -/
def countPlotCmds (s : List Char) : Nat :=
  countPlotCmdsF (s.length + 1) s

/-- Length of the `\{[^}]+\}` mandatory-argument part of an
`\includegraphics` match starting at `r`, if it matches. -/
def igBody (r : List Char) : Option Nat :=
  match r with
  | '{' :: r2 =>
      let inner := r2.takeWhile (fun c => c != '}')
      if inner.length = 0 then none
      else
        match r2.drop inner.length with
        | '}' :: _ => some (1 + inner.length + 1)
        | _ => none
  | _ => none

/-- Length of the part after the literal `\includegraphics`: an optional
`\[[^\]]*\]` option list followed by the mandatory argument. -/
def igAfter (r : List Char) : Option Nat :=
  match r with
  | '[' :: r2 =>
      let opts := r2.takeWhile (fun c => c != ']')
      match r2.drop opts.length with
      | ']' :: r3 => (igBody r3).map (fun m => 1 + opts.length + 1 + m)
      | _ => none
  | _ => igBody r

/-- Length of a match of `\includegraphics(?:\[[^\]]*\])?\{[^}]+\}` at the
start of `s`, if any. -/
def igLen (s : List Char) : Option Nat :=
  if "\\includegraphics".toList.isPrefixOf s then (igAfter (s.drop 16)).map (· + 16)
  else none

/-- Fuelled count of `\includegraphics` commands in `s`. -/
def countIgF : Nat → List Char → Nat
  | 0, _ => 0
  | fuel + 1, s =>
      match igLen s with
      | some n => 1 + countIgF fuel (s.drop (n.max 1))
      | none =>
          match s with
          | [] => 0
          | _ :: r => countIgF fuel r

/-- Number of image-inclusion commands in a file. -/
def countIg (s : List Char) : Nat :=
  countIgF (s.length + 1) s

/-- Begin-marker literals of the eight equation-environment variants counted
by `count_equations_detailed`, and of the container/sub-element environments
counted by `count_figures_and_tables`. -/
def eqLit : List Char := "\\begin{equation}".toList

/-- Begin-marker of `equation*`. -/
def eqStarLit : List Char := "\\begin{equation*}".toList

/-- Begin-marker of `align`. -/
def alignLit : List Char := "\\begin{align}".toList

/-- Begin-marker of `align*`. -/
def alignStarLit : List Char := "\\begin{align*}".toList

/-- Begin-marker of `gather`. -/
def gatherLit : List Char := "\\begin{gather}".toList

/-- Begin-marker of `gather*`. -/
def gatherStarLit : List Char := "\\begin{gather*}".toList

/-- Begin-marker of `multline`. -/
def multlineLit : List Char := "\\begin{multline}".toList

/-- Begin-marker of `multline*`. -/
def multlineStarLit : List Char := "\\begin{multline*}".toList

/-- Pattern for a non-starred equation environment: the begin-marker literal
with the negative lookahead `(?!\*)` excluding the starred spelling. -/
def envPatNS (l : List Char) : List Tok :=
  [Tok.lit l, Tok.notNext starCls]

/-- Pattern for a starred equation environment: the exact (escaped) literal. -/
def envPatStar (l : List Char) : List Tok :=
  [Tok.lit l]

/-- Per-variant tallies built by `count_equations_detailed`
(the `equation_types` dictionary). -/
structure EqCounts where
  equation : Nat
  equationStar : Nat
  align : Nat
  alignStar : Nat
  gather : Nat
  gatherStar : Nat
  multline : Nat
  multlineStar : Nat
deriving DecidableEq

/-- The all-zero `equation_types` dictionary. -/
def zeroEq : EqCounts := ⟨0, 0, 0, 0, 0, 0, 0, 0⟩

/-- Fieldwise sum of two tallies. -/
def addEq (a b : EqCounts) : EqCounts :=
  ⟨a.equation + b.equation, a.equationStar + b.equationStar,
    a.align + b.align, a.alignStar + b.alignStar,
    a.gather + b.gather, a.gatherStar + b.gatherStar,
    a.multline + b.multline, a.multlineStar + b.multlineStar⟩

/-- Contribution of one file to the equation tallies: a file whose read
failed (`none`) is skipped by the per-file `except: continue` and
contributes zero; a readable file contributes its `re.findall` counts. -/
def eqFileCounts : Option (List Char) → EqCounts
  | none => zeroEq
  | some c =>
      ⟨scanCount (envPatNS eqLit) c, scanCount (envPatStar eqStarLit) c,
        scanCount (envPatNS alignLit) c, scanCount (envPatStar alignStarLit) c,
        scanCount (envPatNS gatherLit) c, scanCount (envPatStar gatherStarLit) c,
        scanCount (envPatNS multlineLit) c, scanCount (envPatStar multlineStarLit) c⟩

/-- The scan loop of `count_equations_detailed` over the `.tex` files. -/
def eqBreakdown (files : List (Option (List Char))) : EqCounts :=
  files.foldl (fun acc f => addEq acc (eqFileCounts f)) zeroEq

/-- Total of all eight per-variant tallies. -/
def eqTotal (e : EqCounts) : Nat :=
  e.equation + e.equationStar + e.align + e.alignStar +
    e.gather + e.gatherStar + e.multline + e.multlineStar

/-- `count_equations_detailed`: the grand total returned to `main`. -/
def count_equations_detailed (files : List (Option (List Char))) : Nat :=
  eqTotal (eqBreakdown files)

/-- The `counts` dictionary accumulated by `count_figures_and_tables`. -/
structure FigCounts where
  figures_with_subfigures : Nat
  figures_without_subfigures : Nat
  total_subfigures : Nat
  tables_with_subtables : Nat
  tables_without_subtables : Nat
  total_subtables : Nat
  plots_with_subplots : Nat
  plots_without_subplots : Nat
  total_subplots : Nat
  tikzpictures_with_plots : Nat
  tikzpictures_without_plots : Nat
  pgfplots_with_subplots : Nat
  pgfplots_without_subplots : Nat
  total_addplots : Nat
  standalone_graphics : Nat
deriving DecidableEq

/-- The all-zero `counts` dictionary. -/
def zeroFig : FigCounts := ⟨0, 0, 0, 0, 0, 0, 0, 0, 0, 0, 0, 0, 0, 0, 0⟩

/-- Fieldwise sum of two `counts` dictionaries. -/
def addFig (a b : FigCounts) : FigCounts :=
  ⟨a.figures_with_subfigures + b.figures_with_subfigures,
    a.figures_without_subfigures + b.figures_without_subfigures,
    a.total_subfigures + b.total_subfigures,
    a.tables_with_subtables + b.tables_with_subtables,
    a.tables_without_subtables + b.tables_without_subtables,
    a.total_subtables + b.total_subtables,
    a.plots_with_subplots + b.plots_with_subplots,
    a.plots_without_subplots + b.plots_without_subplots,
    a.total_subplots + b.total_subplots,
    a.tikzpictures_with_plots + b.tikzpictures_with_plots,
    a.tikzpictures_without_plots + b.tikzpictures_without_plots,
    a.pgfplots_with_subplots + b.pgfplots_with_subplots,
    a.pgfplots_without_subplots + b.pgfplots_without_subplots,
    a.total_addplots + b.total_addplots,
    a.standalone_graphics + b.standalone_graphics⟩

/-- Contribution of one readable file to the `counts` dictionary.  The two
loops over plain and starred figures feed the same tallies, so they are run
as one classification over the concatenated span lists (and likewise for
tables); `total_addplots` accumulates both the TikZ plot commands and the
axis `\addplot` commands, as in the source. -/
def figFileCounts (c : List Char) : FigCounts :=
  let figs := extractSpans "\\begin{figure}".toList "\\end{figure}".toList c ++
    extractSpans "\\begin{figure*}".toList "\\end{figure*}".toList c
  let f := classifySpans (countTok "\\begin{subfigure}".toList) figs
  let tabs := extractSpans "\\begin{table}".toList "\\end{table}".toList c ++
    extractSpans "\\begin{table*}".toList "\\end{table*}".toList c
  let t := classifySpans (countTok "\\begin{subtable}".toList) tabs
  let plots := extractSpans "\\begin{plot}".toList "\\end{plot}".toList c
  let p := classifySpans (countTok "\\begin{subplot}".toList) plots
  let tikz := extractSpans "\\begin{tikzpicture}".toList "\\end{tikzpicture}".toList c
  let k := classifySpans countPlotCmds tikz
  let axes := extractSpans "\\begin{axis}".toList "\\end{axis}".toList c
  let a := classifySpans (countTok "\\addplot".toList) axes
  ⟨f.1, f.2.1, f.2.2, t.1, t.2.1, t.2.2, p.1, p.2.1, p.2.2,
    k.1, k.2.1, a.1, a.2.1, k.2.2 + a.2.2, countIg c⟩

/-- Contribution of one file, skipping failed reads (`except: continue`). -/
def figFileOpt : Option (List Char) → FigCounts
  | none => zeroFig
  | some c => figFileCounts c

/-- The scan loop of `count_figures_and_tables` over the `.tex` files. -/
def figBreakdown (files : List (Option (List Char))) : FigCounts :=
  files.foldl (fun acc f => addFig acc (figFileOpt f)) zeroFig

/-- The summary dictionary returned by `count_figures_and_tables`. -/
structure FigSummary where
  figures : Nat
  figures_with_subfigures : Nat
  total_subfigures : Nat
  tables : Nat
  tables_with_subtables : Nat
  total_subtables : Nat
  custom_plots : Nat
  plots_with_subplots : Nat
  total_subplots : Nat
  plot_containers : Nat
  tikz_pgf_plots : Nat
  total_plot_commands : Nat
  graphics : Nat
deriving DecidableEq

/-- `count_figures_and_tables`: the returned summary with its derived totals. -/
def count_figures_and_tables (files : List (Option (List Char))) : FigSummary :=
  let b := figBreakdown files
  let total_custom_plots := b.plots_with_subplots + b.plots_without_subplots
  ⟨b.figures_with_subfigures + b.figures_without_subfigures,
    b.figures_with_subfigures, b.total_subfigures,
    b.tables_with_subtables + b.tables_without_subtables,
    b.tables_with_subtables, b.total_subtables,
    total_custom_plots, b.plots_with_subplots, b.total_subplots,
    b.tikzpictures_with_plots + b.tikzpictures_without_plots +
      b.pgfplots_with_subplots + b.pgfplots_without_subplots + total_custom_plots,
    b.tikzpictures_with_plots + b.pgfplots_with_subplots,
    b.total_addplots, b.standalone_graphics⟩

/-- Per-kind container total: the number of `open(.*?)close` matches over the
readable files (failed reads contribute zero). -/
def spanTotal (openT closeT : List Char) (files : List (Option (List Char))) : Nat :=
  (files.map (fun f =>
    match f with
    | none => 0
    | some c => (extractSpans openT closeT c).length)).sum

/-- `noOcc bad s` holds when the literal `bad` occurs nowhere in `s`. -/
def noOcc (bad : List Char) : List Char → Bool
  | [] => !bad.isPrefixOf ([] : List Char)
  | c :: r => !bad.isPrefixOf (c :: r) && noOcc bad r

/-- Facts of one run that `compile_main_tex` branches on: whether `main.tex`
exists in the working directory, how long the external `latexmk` process
runs (seconds), its exit code if it finishes, and whether `output/main.pdf`
exists afterwards. -/
structure CompileEnv where
  mainTexExists : Bool
  runSeconds : Nat
  exitCode : Nat
  pdfExists : Bool
deriving DecidableEq

/-- Observable outcome of `compile_main_tex`: its boolean return value,
whether `current_process.kill()` was invoked, whether the progress spinner
was stopped (the `finally` block) or was never left running, whether the
timeout failure was reported, and whether the PDF-existence check ran. -/
structure CompileResult where
  success : Bool
  processKilled : Bool
  spinnerStopped : Bool
  reportedTimedOut : Bool
  pdfChecked : Bool
deriving DecidableEq

/-- The fixed `communicate(timeout=6000)` bound, in seconds. -/
def timeoutSeconds : Nat := 6000

/-- `compile_main_tex`: missing `main.tex` short-circuits to `False` before
any process is spawned.  A process exceeding the timeout raises
`TimeoutExpired`; as the exception propagates, the inner `finally` first
stops the spinner and sets the global `current_process` to `None`, so by
the time the `except TimeoutExpired` handler runs its `if current_process:`
guard reads `None` and `current_process.kill()` is unreachable — the
handler only reports the timeout and returns `False`, never killing the
process.  Exit code `0` returns `True` (checking and reporting the PDF but
returning `True` even when it is absent); any other exit code returns
`False`. -/
def compile_main_tex (env : CompileEnv) : CompileResult :=
  if env.mainTexExists = false then
    { success := false, processKilled := false, spinnerStopped := true,
      reportedTimedOut := false, pdfChecked := false }
  else if timeoutSeconds < env.runSeconds then
    { success := false, processKilled := false, spinnerStopped := true,
      reportedTimedOut := true, pdfChecked := false }
  else if env.exitCode = 0 then
    { success := true, processKilled := false, spinnerStopped := true,
      reportedTimedOut := false, pdfChecked := true }
  else
    { success := false, processKilled := false, spinnerStopped := true,
      reportedTimedOut := false, pdfChecked := false }

/-- Exit code of `main`: `sys.exit(0)` when `compile_main_tex` returned
`True` (also on the `--pdfa` path), `sys.exit(1)` otherwise. -/
def mainExitCode (env : CompileEnv) : Nat :=
  if (compile_main_tex env).success then 0 else 1

/-- One run of `main` as observed through (warning count, auxiliary-notice
count, exit code); the log analysis never influences the exit code. -/
def mainOutcome (env : CompileEnv) (log : Option (List Char)) : Nat × Nat × Nat :=
  let wa := count_and_display_warnings log
  (wa.1, wa.2, mainExitCode env)

/-- First line of the C2 scenario log:
`LaTeX Warning: Reference `fig:1' on page 3 undefined`. -/
def c2line1 : List Char :=
  "LaTeX Warning: Reference `fig:1".toList ++ apos :: " on page 3 undefined".toList

/-- The C2 scenario log: the undefined-reference warning line followed by an
overfull-box line. -/
def c2log : List Char :=
  c2line1 ++ '\n' :: "Overfull \\hbox (5.2pt too wide) in paragraph at lines 10--12".toList

/-- Input on which the non-starred lookahead pattern and the starred pattern
both fail although a non-starred begin-marker occurs: `\begin{equation}*`. -/
def c4bad : List Char := "\\begin{equation}*".toList

/-- A well-behaved source text for the C4 witness. -/
def c4good : List Char :=
  "\\begin{equation} a \\end{equation} \\begin{equation*} b \\end{equation*} \\begin{align} c \\end{align}".toList

/-- C5 scenario, first file: one figure containing two subfigures. -/
def c5f1 : List Char :=
  "\\begin{figure}...\\begin{subfigure}...\\end{subfigure}\\begin{subfigure}...\\end{subfigure}\\end{figure}".toList

/-- C5 scenario, second file: one figure with no subfigure. -/
def c5f2 : List Char := "\\begin{figure}...\\end{figure}".toList

/-- A readable file with no counted constructs (for the C3 counterexample). -/
def c3okFile : List Char := "hello world".toList

/-- A log line matching both an auxiliary box pattern and a warning
signature (for the C6 witness). -/
def c6line : List Char :=
  "Overfull \\hbox (1.0pt too wide) LaTeX Warning: both".toList

/-- A log line matching an exclusion signature and a warning signature
(for the C7 witness). -/
def c7line : List Char :=
  "LaTeX Font Info: LaTeX Warning: shadowed".toList

/-- C1: evaluating the supervisor at a run whose external process exceeds
the 6000-second bound shows the claim's kill conjunct false of the code:
the spinner is stopped, the TimedOut failure is reported, `False` is
returned and `main` exits 1, but the process is never killed — the inner
`finally` clears the global process handle before the `TimeoutExpired`
handler's `if current_process:` guard, so `kill()` is unreachable. -/
theorem spec_C1 :
    (compile_main_tex ⟨true, 6001, 0, false⟩).processKilled = false ∧
      (compile_main_tex ⟨true, 6001, 0, false⟩).spinnerStopped = true ∧
      (compile_main_tex ⟨true, 6001, 0, false⟩).reportedTimedOut = true ∧
      (compile_main_tex ⟨true, 6001, 0, false⟩).success = false ∧
      mainExitCode ⟨true, 6001, 0, false⟩ = 1 := by
  decide

/-- C9: when the external process exits with code zero within the timeout,
`compile_main_tex` returns `True`; the PDF-existence check runs, but the
result is `True` regardless of whether the PDF exists. -/
theorem spec_C9 (env : CompileEnv) (hmain : env.mainTexExists = true)
    (htime : env.runSeconds ≤ timeoutSeconds) (hexit : env.exitCode = 0) :
    (compile_main_tex env).success = true ∧
      (compile_main_tex env).pdfChecked = true ∧
      (compile_main_tex { env with pdfExists := false }).success = true ∧
      mainExitCode env = 0 := by
  simp [compile_main_tex, mainExitCode, hmain, hexit, Nat.not_lt.mpr htime]

/-- Witness for C9 at a concrete environment in which the PDF is absent. -/
theorem spec_C9_witness :
    (⟨true, 42, 0, false⟩ : CompileEnv).mainTexExists = true ∧
      (⟨true, 42, 0, false⟩ : CompileEnv).runSeconds ≤ timeoutSeconds ∧
      (⟨true, 42, 0, false⟩ : CompileEnv).exitCode = 0 ∧
      ((compile_main_tex ⟨true, 42, 0, false⟩).success = true ∧
        (compile_main_tex ⟨true, 42, 0, false⟩).pdfChecked = true ∧
        (compile_main_tex { (⟨true, 42, 0, false⟩ : CompileEnv) with pdfExists := false }).success = true ∧
        mainExitCode ⟨true, 42, 0, false⟩ = 0) :=
  ⟨rfl, by decide, rfl, spec_C9 ⟨true, 42, 0, false⟩ rfl (by decide) rfl⟩

/-- C8: a missing log file is reported as zero warnings and zero auxiliary
notices rather than raising, and the exit code of the run is whatever the
compilation outcome dictates, independent of the log analysis. -/
theorem spec_C8 (env : CompileEnv) :
    count_and_display_warnings none = (0, 0) ∧
      mainOutcome env none = (0, 0, mainExitCode env) ∧
      ∀ log : Option (List Char), (mainOutcome env log).2.2 = mainExitCode env := by
  refine ⟨rfl, rfl, fun log => ?_⟩
  cases log <;> rfl

/-- C2, counterexample to the claim as stated: on the scenario log the
analyzer does not produce exactly one Warning record, because the
undefined-reference line matches both the generic `LaTeX Warning:` pattern
and the reference-specific pattern. -/
theorem spec_C2_cex :
    ¬ ((parse_warnings c2log).1 = 1 ∧ (parse_warnings c2log).2 = 1) := by
  decide

/-- C2, amended: the scenario log yields exactly 2 Warning records (the
generic and the reference-specific pattern each record the first line) and
exactly 1 AuxiliaryLayoutNotice record (the overfull-box line). -/
theorem spec_C2 : parse_warnings c2log = (2, 1) := by
  decide

/-- A scan finds a nonzero number of matches exactly when a search succeeds,
fuel for fuel. -/
theorem scanCountF_ne_zero_iff (p : List Tok) :
    ∀ (f : Nat) (s : List Char), scanCountF f p s ≠ 0 ↔ searchF f p s = true := by
  intro f
  induction f with
  | zero => intro s; simp [scanCountF, searchF]
  | succ f ih =>
      intro s
      show (match matchEnd p s with
        | some n => 1 + scanCountF f p (s.drop (n.max 1))
        | none => match s with | [] => 0 | _ :: r => scanCountF f p r) ≠ 0 ↔ _
      cases hm : matchEnd p s with
      | some n => simp [searchF, hm]
      | none =>
          cases s with
          | nil => simp [searchF, hm]
          | cons c r => simpa [searchF, hm] using ih r

/-- `re.finditer` records at least one match on a line iff `re.search`
succeeds on it. -/
theorem scanCount_ne_zero_iff (p : List Tok) (s : List Char) :
    scanCount p s ≠ 0 ↔ search p s = true :=
  scanCountF_ne_zero_iff p (s.length + 1) s

/-- C6: a log line on which an Overfull/Underfull box pattern matches
contributes no Warning record, and (unless it is excluded) it does
contribute AuxiliaryLayoutNotice records. -/
theorem spec_C6 (raw : List Char)
    (haux : ∃ p ∈ auxPatterns, search p (prepLine raw) = true) :
    (classifyLine raw).1 = 0 ∧
      ((∀ q ∈ excludePatterns, search q (prepLine raw) = false) →
        (classifyLine raw).2 ≠ 0) := by
  obtain ⟨p, hp, hs⟩ := haux
  have hcnt : scanCount p (prepLine raw) ≠ 0 := (scanCount_ne_zero_iff p _).mpr hs
  have hsum : (auxPatterns.map (fun q => scanCount q (prepLine raw))).sum ≠ 0 := by
    intro h0
    rw [List.sum_eq_zero_iff] at h0
    exact hcnt (h0 _ (List.mem_map.mpr ⟨p, hp, rfl⟩))
  unfold classifyLine
  by_cases hex : excludePatterns.any (fun q => search q (prepLine raw))
  · refine ⟨by simp [hex], fun hnone => ?_⟩
    rw [List.any_eq_true] at hex
    obtain ⟨q, hq, hsq⟩ := hex
    simp [hnone q hq] at hsq
  · simp [hex, hsum]

/-- Witness for C6: a line matching both an overfull-box pattern and the
generic warning signature yields auxiliary records and no warning record. -/
theorem spec_C6_witness :
    (∃ p ∈ auxPatterns, search p (prepLine c6line) = true) ∧
      (∀ q ∈ excludePatterns, search q (prepLine c6line) = false) ∧
      (classifyLine c6line).1 = 0 ∧ (classifyLine c6line).2 ≠ 0 :=
  ⟨by decide, by decide,
    (spec_C6 c6line (by decide)).1, (spec_C6 c6line (by decide)).2 (by decide)⟩

/-- C7: a log line matching one of the fixed exclusion signatures contributes
neither Warning nor AuxiliaryLayoutNotice records. -/
theorem spec_C7 (raw : List Char)
    (hex : ∃ p ∈ excludePatterns, search p (prepLine raw) = true) :
    classifyLine raw = (0, 0) := by
  obtain ⟨p, hp, hs⟩ := hex
  have hany : excludePatterns.any (fun q => search q (prepLine raw)) = true :=
    List.any_eq_true.mpr ⟨p, hp, hs⟩
  unfold classifyLine
  simp [hany]

/-- Witness for C7: a font-info line that also contains a warning signature
is dropped entirely. -/
theorem spec_C7_witness :
    (∃ p ∈ excludePatterns, search p (prepLine c7line) = true) ∧
      classifyLine c7line = (0, 0) :=
  ⟨by decide, spec_C7 c7line (by decide)⟩

/-- Codepoints in the lower-case ASCII range are valid, so `Char.ofNat`
round-trips on them. -/
theorem toNat_ofNat_lower (n : Nat) (h1 : 97 ≤ n) (h2 : n ≤ 122) :
    (Char.ofNat n).toNat = n := by
  interval_cases n <;> decide

/-- ASCII case-folding is idempotent. -/
theorem lowerChar_idem (c : Char) : lowerChar (lowerChar c) = lowerChar c := by
  unfold lowerChar
  by_cases h : 65 ≤ c.toNat ∧ c.toNat ≤ 90
  · have ht : (Char.ofNat (c.toNat + 32)).toNat = c.toNat + 32 :=
      toNat_ofNat_lower _ (by omega) (by omega)
    rw [if_pos h, if_neg]
    rw [ht]
    omega
  · rw [if_neg h, if_neg h]

/-- ASCII case-folding neither creates nor destroys whitespace. -/
theorem pySpace_lowerChar (c : Char) : pySpace (lowerChar c) = pySpace c := by
  unfold lowerChar
  by_cases h : 65 ≤ c.toNat ∧ c.toNat ≤ 90
  · have ht : (Char.ofNat (c.toNat + 32)).toNat = c.toNat + 32 :=
      toNat_ofNat_lower _ (by omega) (by omega)
    rw [if_pos h]
    unfold pySpace
    rw [ht]
    have hL : ∀ m : Nat, 65 ≤ m →
        ((m == 32) || (m == 9) || (m == 10) || (m == 13) || (m == 11) || (m == 12)) = false := by
      intro m hm
      simp only [Bool.or_eq_false_iff, beq_eq_false_iff_ne]
      omega
    rw [hL (c.toNat + 32) (by omega), hL c.toNat (by omega)]
  · rw [if_neg h]

/-- Stripping commutes with case-folding the whole line. -/
theorem pyStrip_lowerStr (l : List Char) :
    pyStrip (lowerStr l) = lowerStr (pyStrip l) := by
  have hcls : (pySpace ∘ lowerChar) = pySpace := funext pySpace_lowerChar
  unfold pyStrip lowerStr
  rw [List.dropWhile_map, hcls, ← List.map_reverse, List.dropWhile_map, hcls,
    ← List.map_reverse]

/-- Case-folding a whole line is idempotent. -/
theorem lowerStr_idem (l : List Char) : lowerStr (lowerStr l) = lowerStr l := by
  unfold lowerStr
  rw [List.map_map]
  exact List.map_congr_left fun c _ => lowerChar_idem c

/-- C10: all of `parse_warnings`' per-line classification — the exclusion
pass, the auxiliary-box pass and the warning pass — is case-insensitive: a
line and its case-folded image classify identically. -/
theorem spec_C10 (raw : List Char) :
    classifyLine raw = classifyLine (lowerStr raw) := by
  have key : prepLine (lowerStr raw) = prepLine raw := by
    unfold prepLine
    rw [pyStrip_lowerStr, lowerStr_idem]
  unfold classifyLine
  rw [key]

/-- The all-zero tally is neutral for the equation accumulator. -/
theorem addEq_zero (a : EqCounts) : addEq a zeroEq = a := by
  cases a
  simp [addEq, zeroEq]

/-- The all-zero tally is neutral for the figure accumulator. -/
theorem addFig_zero (a : FigCounts) : addFig a zeroFig = a := by
  cases a
  simp [addFig, zeroFig]

/-- Dropping a failed file from the scan leaves the equation tallies
unchanged: the `except: continue` contributes nothing. -/
theorem eqBreakdown_removeNone (fs1 fs2 : List (Option (List Char))) :
    eqBreakdown (fs1 ++ none :: fs2) = eqBreakdown (fs1 ++ fs2) := by
  unfold eqBreakdown
  rw [List.foldl_append, List.foldl_append, List.foldl_cons]
  rw [show eqFileCounts none = zeroEq from rfl, addEq_zero]

/-- Dropping a failed file from the scan leaves the figure tallies unchanged. -/
theorem figBreakdown_removeNone (fs1 fs2 : List (Option (List Char))) :
    figBreakdown (fs1 ++ none :: fs2) = figBreakdown (fs1 ++ fs2) := by
  unfold figBreakdown
  rw [List.foldl_append, List.foldl_append, List.foldl_cons]
  rw [show figFileOpt none = zeroFig from rfl, addFig_zero]

/-- If every file failed (or there were none), the equation result is all
zero. -/
theorem eqBreakdown_allNone :
    ∀ fs : List (Option (List Char)), (∀ f ∈ fs, f = none) → eqBreakdown fs = zeroEq := by
  intro fs
  induction fs with
  | nil => intro _; rfl
  | cons f fs ih =>
      intro h
      have hf : f = none := h f (List.mem_cons_self f fs)
      unfold eqBreakdown
      rw [List.foldl_cons, hf]
      rw [show addEq zeroEq (eqFileCounts none) = zeroEq from rfl]
      exact ih fun g hg => h g (List.mem_cons_of_mem f hg)

/-- If every file failed (or there were none), the figure result is all
zero. -/
theorem figBreakdown_allNone :
    ∀ fs : List (Option (List Char)), (∀ f ∈ fs, f = none) → figBreakdown fs = zeroFig := by
  intro fs
  induction fs with
  | nil => intro _; rfl
  | cons f fs ih =>
      intro h
      have hf : f = none := h f (List.mem_cons_self f fs)
      unfold figBreakdown
      rw [List.foldl_cons, hf]
      rw [show addFig zeroFig (figFileOpt none) = zeroFig from rfl]
      exact ih fun g hg => h g (List.mem_cons_of_mem f hg)

/-- C3, amended: a per-file read failure is swallowed — the failed file
contributes zero to every tally and the scan continues over the remaining
files — and the extractor returns an all-zero result whenever no files were
found or every file failed.  (The converse of the last part does not hold:
a readable file without counted constructs also yields all zero.) -/
theorem spec_C3 :
    (∀ fs1 fs2 : List (Option (List Char)),
        eqBreakdown (fs1 ++ none :: fs2) = eqBreakdown (fs1 ++ fs2) ∧
          figBreakdown (fs1 ++ none :: fs2) = figBreakdown (fs1 ++ fs2)) ∧
      (∀ fs : List (Option (List Char)), (∀ f ∈ fs, f = none) →
        eqBreakdown fs = zeroEq ∧ figBreakdown fs = zeroFig) :=
  ⟨fun fs1 fs2 => ⟨eqBreakdown_removeNone fs1 fs2, figBreakdown_removeNone fs1 fs2⟩,
    fun fs h => ⟨eqBreakdown_allNone fs h, figBreakdown_allNone fs h⟩⟩

/-- C3, counterexample to the claim as stated: a scan of one readable file
with no counted constructs returns the all-zero result set although files
were found and none failed, refuting "all-zero only if no files were found
or every file failed". -/
theorem spec_C3_cex :
    (eqBreakdown [some c3okFile] = zeroEq ∧ figBreakdown [some c3okFile] = zeroFig) ∧
      ¬(([some c3okFile] : List (Option (List Char))) = [] ∨
        ∀ f ∈ ([some c3okFile] : List (Option (List Char))), f = none) := by
  decide

/-- Witness for C3 at a concrete scan in which every file failed. -/
theorem spec_C3_witness :
    (∀ f ∈ ([none, none] : List (Option (List Char))), f = none) ∧
      (eqBreakdown [none, none] = zeroEq ∧ figBreakdown [none, none] = zeroFig) :=
  ⟨by decide, spec_C3.2 [none, none] (by decide)⟩

/-- Every container span increments exactly one of the "with" and "without"
tallies, so the two tallies partition the span list. -/
theorem classifySpans_split (cnt : List Char → Nat) :
    ∀ spans : List (List Char),
      (classifySpans cnt spans).1 + (classifySpans cnt spans).2.1 = spans.length := by
  intro spans
  induction spans with
  | nil => rfl
  | cons sp rest ih =>
      simp only [classifySpans]
      by_cases h : cnt sp > 0
      · simp only [h, if_true, List.length_cons]
        omega
      · simp only [h, if_false, List.length_cons]
        omega

/-- Fieldwise associativity of the figure accumulator. -/
theorem addFig_assoc (a b c : FigCounts) :
    addFig (addFig a b) c = addFig a (addFig b c) := by
  cases a
  cases b
  cases c
  simp [addFig, Nat.add_assoc]

/-- The all-zero tally is left-neutral for the figure accumulator. -/
theorem zero_addFig (a : FigCounts) : addFig zeroFig a = a := by
  cases a
  simp [addFig, zeroFig]

/-- The figure-scan loop written with an arbitrary accumulator. -/
theorem foldl_addFig :
    ∀ (fs : List (Option (List Char))) (a : FigCounts),
      List.foldl (fun acc f => addFig acc (figFileOpt f)) a fs = addFig a (figBreakdown fs) := by
  intro fs
  induction fs with
  | nil => intro a; exact (addFig_zero a).symm
  | cons f fs ih =>
      intro a
      show List.foldl _ (addFig a (figFileOpt f)) fs = _
      rw [ih]
      unfold figBreakdown
      rw [List.foldl_cons, ih (addFig zeroFig (figFileOpt f)), zero_addFig, addFig_assoc]
      rfl

/-- Peeling one file off the figure scan. -/
theorem figBreakdown_cons (f : Option (List Char)) (fs : List (Option (List Char))) :
    figBreakdown (f :: fs) = addFig (figFileOpt f) (figBreakdown fs) := by
  unfold figBreakdown
  rw [List.foldl_cons, foldl_addFig, zero_addFig]
  rfl

/-- Per-file partition for figures (plain and starred containers feed the
same two tallies). -/
theorem figFile_split_figures (c : List Char) :
    (figFileCounts c).figures_with_subfigures + (figFileCounts c).figures_without_subfigures
      = (extractSpans "\\begin{figure}".toList "\\end{figure}".toList c).length +
        (extractSpans "\\begin{figure*}".toList "\\end{figure*}".toList c).length := by
  have h := classifySpans_split (countTok "\\begin{subfigure}".toList)
    (extractSpans "\\begin{figure}".toList "\\end{figure}".toList c ++
      extractSpans "\\begin{figure*}".toList "\\end{figure*}".toList c)
  rw [List.length_append] at h
  exact h

/-- Per-file partition for tables. -/
theorem figFile_split_tables (c : List Char) :
    (figFileCounts c).tables_with_subtables + (figFileCounts c).tables_without_subtables
      = (extractSpans "\\begin{table}".toList "\\end{table}".toList c).length +
        (extractSpans "\\begin{table*}".toList "\\end{table*}".toList c).length := by
  have h := classifySpans_split (countTok "\\begin{subtable}".toList)
    (extractSpans "\\begin{table}".toList "\\end{table}".toList c ++
      extractSpans "\\begin{table*}".toList "\\end{table*}".toList c)
  rw [List.length_append] at h
  exact h

/-- Per-file partition for the custom plot environment. -/
theorem figFile_split_plots (c : List Char) :
    (figFileCounts c).plots_with_subplots + (figFileCounts c).plots_without_subplots
      = (extractSpans "\\begin{plot}".toList "\\end{plot}".toList c).length :=
  classifySpans_split (countTok "\\begin{subplot}".toList)
    (extractSpans "\\begin{plot}".toList "\\end{plot}".toList c)

/-- Per-file partition for TikZ pictures. -/
theorem figFile_split_tikz (c : List Char) :
    (figFileCounts c).tikzpictures_with_plots + (figFileCounts c).tikzpictures_without_plots
      = (extractSpans "\\begin{tikzpicture}".toList "\\end{tikzpicture}".toList c).length :=
  classifySpans_split countPlotCmds
    (extractSpans "\\begin{tikzpicture}".toList "\\end{tikzpicture}".toList c)

/-- Per-file partition for axis environments. -/
theorem figFile_split_axis (c : List Char) :
    (figFileCounts c).pgfplots_with_subplots + (figFileCounts c).pgfplots_without_subplots
      = (extractSpans "\\begin{axis}".toList "\\end{axis}".toList c).length :=
  classifySpans_split (countTok "\\addplot".toList)
    (extractSpans "\\begin{axis}".toList "\\end{axis}".toList c)

/-- Whole-scan partition for figures. -/
theorem figBreakdown_split_figures (files : List (Option (List Char))) :
    (figBreakdown files).figures_with_subfigures + (figBreakdown files).figures_without_subfigures
      = spanTotal "\\begin{figure}".toList "\\end{figure}".toList files +
        spanTotal "\\begin{figure*}".toList "\\end{figure*}".toList files := by
  induction files with
  | nil => rfl
  | cons f fs ih =>
      rw [figBreakdown_cons]
      simp only [spanTotal, List.map_cons, List.sum_cons] at ih ⊢
      cases f with
      | none =>
          have h0 : (figFileOpt none) = zeroFig := rfl
          simp only [h0, addFig, zeroFig]
          omega
      | some c =>
          have h := figFile_split_figures c
          simp only [figFileOpt, addFig]
          omega

/-- Whole-scan partition for tables. -/
theorem figBreakdown_split_tables (files : List (Option (List Char))) :
    (figBreakdown files).tables_with_subtables + (figBreakdown files).tables_without_subtables
      = spanTotal "\\begin{table}".toList "\\end{table}".toList files +
        spanTotal "\\begin{table*}".toList "\\end{table*}".toList files := by
  induction files with
  | nil => rfl
  | cons f fs ih =>
      rw [figBreakdown_cons]
      simp only [spanTotal, List.map_cons, List.sum_cons] at ih ⊢
      cases f with
      | none =>
          have h0 : (figFileOpt none) = zeroFig := rfl
          simp only [h0, addFig, zeroFig]
          omega
      | some c =>
          have h := figFile_split_tables c
          simp only [figFileOpt, addFig]
          omega

/-- Whole-scan partition for custom plot blocks. -/
theorem figBreakdown_split_plots (files : List (Option (List Char))) :
    (figBreakdown files).plots_with_subplots + (figBreakdown files).plots_without_subplots
      = spanTotal "\\begin{plot}".toList "\\end{plot}".toList files := by
  induction files with
  | nil => rfl
  | cons f fs ih =>
      rw [figBreakdown_cons]
      simp only [spanTotal, List.map_cons, List.sum_cons] at ih ⊢
      cases f with
      | none =>
          have h0 : (figFileOpt none) = zeroFig := rfl
          simp only [h0, addFig, zeroFig]
          omega
      | some c =>
          have h := figFile_split_plots c
          simp only [figFileOpt, addFig]
          omega

/-- Whole-scan partition for TikZ pictures. -/
theorem figBreakdown_split_tikz (files : List (Option (List Char))) :
    (figBreakdown files).tikzpictures_with_plots + (figBreakdown files).tikzpictures_without_plots
      = spanTotal "\\begin{tikzpicture}".toList "\\end{tikzpicture}".toList files := by
  induction files with
  | nil => rfl
  | cons f fs ih =>
      rw [figBreakdown_cons]
      simp only [spanTotal, List.map_cons, List.sum_cons] at ih ⊢
      cases f with
      | none =>
          have h0 : (figFileOpt none) = zeroFig := rfl
          simp only [h0, addFig, zeroFig]
          omega
      | some c =>
          have h := figFile_split_tikz c
          simp only [figFileOpt, addFig]
          omega

/-- Whole-scan partition for axis environments. -/
theorem figBreakdown_split_axis (files : List (Option (List Char))) :
    (figBreakdown files).pgfplots_with_subplots + (figBreakdown files).pgfplots_without_subplots
      = spanTotal "\\begin{axis}".toList "\\end{axis}".toList files := by
  induction files with
  | nil => rfl
  | cons f fs ih =>
      rw [figBreakdown_cons]
      simp only [spanTotal, List.map_cons, List.sum_cons] at ih ⊢
      cases f with
      | none =>
          have h0 : (figFileOpt none) = zeroFig := rfl
          simp only [h0, addFig, zeroFig]
          omega
      | some c =>
          have h := figFile_split_axis c
          simp only [figFileOpt, addFig]
          omega

/-- C5: for every source tree and every container kind, the "with" and
"without" tallies partition the matched containers, so their sum is the
total container count of that kind; and the concrete two-file scenario
yields 1 figure with 2 subfigures, 1 figure without, 2 figures in total. -/
theorem spec_C5 :
    (∀ files : List (Option (List Char)),
      ((figBreakdown files).figures_with_subfigures + (figBreakdown files).figures_without_subfigures
          = spanTotal "\\begin{figure}".toList "\\end{figure}".toList files +
            spanTotal "\\begin{figure*}".toList "\\end{figure*}".toList files) ∧
        ((figBreakdown files).tables_with_subtables + (figBreakdown files).tables_without_subtables
          = spanTotal "\\begin{table}".toList "\\end{table}".toList files +
            spanTotal "\\begin{table*}".toList "\\end{table*}".toList files) ∧
        ((figBreakdown files).plots_with_subplots + (figBreakdown files).plots_without_subplots
          = spanTotal "\\begin{plot}".toList "\\end{plot}".toList files) ∧
        ((figBreakdown files).tikzpictures_with_plots + (figBreakdown files).tikzpictures_without_plots
          = spanTotal "\\begin{tikzpicture}".toList "\\end{tikzpicture}".toList files) ∧
        ((figBreakdown files).pgfplots_with_subplots + (figBreakdown files).pgfplots_without_subplots
          = spanTotal "\\begin{axis}".toList "\\end{axis}".toList files)) ∧
      ((figBreakdown [some c5f1, some c5f2]).figures_with_subfigures = 1 ∧
        (figBreakdown [some c5f1, some c5f2]).total_subfigures = 2 ∧
        (figBreakdown [some c5f1, some c5f2]).figures_without_subfigures = 1 ∧
        (count_figures_and_tables [some c5f1, some c5f2]).figures = 2) :=
  ⟨fun files =>
    ⟨figBreakdown_split_figures files, figBreakdown_split_tables files,
      figBreakdown_split_plots files, figBreakdown_split_tikz files,
      figBreakdown_split_axis files⟩,
    by decide⟩

/-- One-step unfolding of the matcher on an exhausted pattern. -/
theorem matchEndF_nil (f : Nat) (s : List Char) :
    matchEndF (f + 1) [] s = some 0 := rfl

/-- One-step unfolding of the matcher on a literal token. -/
theorem matchEndF_lit (f : Nat) (l : List Char) (ts : List Tok) (s : List Char) :
    matchEndF (f + 1) (Tok.lit l :: ts) s =
      if l.isPrefixOf s then (matchEndF f ts (s.drop l.length)).map (· + l.length) else none := rfl

/-- One-step unfolding of the matcher on a negative lookahead. -/
theorem matchEndF_notNext (f : Nat) (cls : Char → Bool) (ts : List Tok) (s : List Char) :
    matchEndF (f + 1) (Tok.notNext cls :: ts) s =
      if lookNeg cls s then matchEndF f ts s else none := rfl

/-- A bare-literal pattern matches exactly when the literal is a prefix,
with the literal's length as the match length. -/
theorem matchEnd_lit_single (l : List Char) (s : List Char) :
    matchEnd [Tok.lit l] s = if l.isPrefixOf s then some l.length else none := by
  show matchEndF (s.length + 1 + 1) [Tok.lit l] s = _
  rw [matchEndF_lit]
  by_cases h : l.isPrefixOf s
  · rw [if_pos h, if_pos h, matchEndF_nil]
    simp
  · rw [if_neg h, if_neg h]

/-- A literal-plus-lookahead pattern matches exactly when the literal is a
prefix and the lookahead test passes, again with the literal's length. -/
theorem matchEnd_litNot (l : List Char) (cls : Char → Bool) (s : List Char) :
    matchEnd [Tok.lit l, Tok.notNext cls] s =
      if l.isPrefixOf s then
        (if lookNeg cls (s.drop l.length) then some l.length else none)
      else none := by
  show matchEndF (s.length + 1 + 1 + 1) [Tok.lit l, Tok.notNext cls] s = _
  rw [matchEndF_lit]
  by_cases h : l.isPrefixOf s
  · rw [if_pos h, if_pos h, matchEndF_notNext]
    by_cases h2 : lookNeg cls (s.drop l.length)
    · rw [if_pos h2, if_pos h2, matchEndF_nil]
      simp
    · rw [if_neg h2, if_neg h2]
      rfl
  · rw [if_neg h, if_neg h]

/-- One-step unfolding of the match counter. -/
theorem scanCountF_succ (f : Nat) (p : List Tok) (s : List Char) :
    scanCountF (f + 1) p s =
      match matchEnd p s with
      | some n => 1 + scanCountF f p (s.drop (n.max 1))
      | none =>
          match s with
          | [] => 0
          | _ :: r => scanCountF f p r := rfl

/-- If `bad` occurs nowhere in `s`, it is in particular not a prefix. -/
theorem noOcc_head (bad s : List Char) (h : noOcc bad s = true) :
    bad.isPrefixOf s = false := by
  cases s with
  | nil => simpa [noOcc] using h
  | cons c r => simpa [noOcc] using (Bool.and_elim_left h)

/-- Absence of an occurrence is inherited by the tail. -/
theorem noOcc_tail (bad : List Char) (c : Char) (r : List Char)
    (h : noOcc bad (c :: r) = true) : noOcc bad r = true := by
  simpa [noOcc] using (Bool.and_elim_right h)

/-- Absence of an occurrence is inherited by any suffix. -/
theorem noOcc_drop (bad : List Char) :
    ∀ (k : Nat) (s : List Char), noOcc bad s = true → noOcc bad (s.drop k) = true := by
  intro k
  induction k with
  | zero => intro s h; simpa using h
  | succ k ih =>
      intro s h
      cases s with
      | nil => simpa using h
      | cons c r => exact ih r (noOcc_tail bad c r h)

/-- If `L` is a prefix of `s` and the character right after it is `c`, then
`L ++ [c]` is a prefix of `s`. -/
theorem isPrefixOf_snoc (L : List Char) :
    ∀ (s t : List Char) (c : Char), L.isPrefixOf s = true →
      s.drop L.length = c :: t → (L ++ [c]).isPrefixOf s = true := by
  induction L with
  | nil =>
      intro s t c _ hd
      simp only [List.length_nil, List.drop_zero] at hd
      subst hd
      simp [List.isPrefixOf]
  | cons a L ih =>
      intro s t c h hd
      cases s with
      | nil => simp [List.isPrefixOf] at h
      | cons b s2 =>
          simp only [List.isPrefixOf, Bool.and_eq_true] at h
          simp only [List.length_cons, List.drop_succ_cons] at hd
          simp only [List.cons_append, List.isPrefixOf, Bool.and_eq_true]
          exact ⟨h.1, ih s2 t c h.2 hd⟩

/-- Bridge between the lookahead-guarded scan and the plain-literal scan:
when the rejected continuation `L*` occurs nowhere in the text, the
negative lookahead never fires and the two scans count the same matches. -/
theorem scanCountF_lookahead (L : List Char) :
    ∀ (f : Nat) (s : List Char), noOcc (L ++ ['*']) s = true →
      scanCountF f [Tok.lit L, Tok.notNext starCls] s = scanCountF f [Tok.lit L] s := by
  intro f
  induction f with
  | zero => intro s _; rfl
  | succ f ih =>
      intro s h
      rw [scanCountF_succ, scanCountF_succ, matchEnd_litNot, matchEnd_lit_single]
      by_cases h1 : L.isPrefixOf s
      · have hlook : lookNeg starCls (s.drop L.length) = true := by
          cases hd : s.drop L.length with
          | nil => rfl
          | cons c t =>
              cases hsc : starCls c with
              | false => simp [lookNeg, hsc]
              | true =>
                  exfalso
                  have hc : c = '*' := by simpa [starCls] using hsc
                  subst hc
                  have := isPrefixOf_snoc L s t '*' h1 hd
                  rw [noOcc_head (L ++ ['*']) s h] at this
                  exact Bool.false_ne_true this
        rw [if_pos h1, if_pos h1, if_pos hlook]
        show 1 + scanCountF f [Tok.lit L, Tok.notNext starCls] (s.drop (L.length.max 1)) =
          1 + scanCountF f [Tok.lit L] (s.drop (L.length.max 1))
        rw [ih (s.drop (L.length.max 1)) (noOcc_drop (L ++ ['*']) (L.length.max 1) s h)]
      · rw [if_neg h1, if_neg h1]
        cases s with
        | nil => rfl
        | cons c r => exact ih r (noOcc_tail (L ++ ['*']) c r h)

/-- The same bridge at the wrapper level. -/
theorem scanCount_lookahead (L : List Char) (s : List Char)
    (h : noOcc (L ++ ['*']) s = true) :
    scanCount [Tok.lit L, Tok.notNext starCls] s = scanCount [Tok.lit L] s :=
  scanCountF_lookahead L (s.length + 1) s h

/-- C4, amended: the per-variant counts of a starred/non-starred family are
disjoint, and they are exhaustive over the family's begin-markers provided
no non-starred begin-marker is immediately followed by `*` in the text;
under that proviso the two counts sum to the total number of begin-marker
occurrences of the family (the starred count is the starred-marker count by
definition, and the lookahead never rejects a non-starred marker). -/
theorem spec_C4 (c : List Char)
    (h1 : noOcc (eqLit ++ ['*']) c = true)
    (h2 : noOcc (alignLit ++ ['*']) c = true)
    (h3 : noOcc (gatherLit ++ ['*']) c = true)
    (h4 : noOcc (multlineLit ++ ['*']) c = true) :
    ((eqFileCounts (some c)).equation + (eqFileCounts (some c)).equationStar
        = countTok eqLit c + countTok eqStarLit c) ∧
      ((eqFileCounts (some c)).align + (eqFileCounts (some c)).alignStar
        = countTok alignLit c + countTok alignStarLit c) ∧
      ((eqFileCounts (some c)).gather + (eqFileCounts (some c)).gatherStar
        = countTok gatherLit c + countTok gatherStarLit c) ∧
      ((eqFileCounts (some c)).multline + (eqFileCounts (some c)).multlineStar
        = countTok multlineLit c + countTok multlineStarLit c) := by
  refine ⟨?_, ?_, ?_, ?_⟩
  · show scanCount [Tok.lit eqLit, Tok.notNext starCls] c + scanCount [Tok.lit eqStarLit] c
      = scanCount [Tok.lit eqLit] c + scanCount [Tok.lit eqStarLit] c
    rw [scanCount_lookahead eqLit c h1]
  · show scanCount [Tok.lit alignLit, Tok.notNext starCls] c + scanCount [Tok.lit alignStarLit] c
      = scanCount [Tok.lit alignLit] c + scanCount [Tok.lit alignStarLit] c
    rw [scanCount_lookahead alignLit c h2]
  · show scanCount [Tok.lit gatherLit, Tok.notNext starCls] c + scanCount [Tok.lit gatherStarLit] c
      = scanCount [Tok.lit gatherLit] c + scanCount [Tok.lit gatherStarLit] c
    rw [scanCount_lookahead gatherLit c h3]
  · show scanCount [Tok.lit multlineLit, Tok.notNext starCls] c + scanCount [Tok.lit multlineStarLit] c
      = scanCount [Tok.lit multlineLit] c + scanCount [Tok.lit multlineStarLit] c
    rw [scanCount_lookahead multlineLit c h4]

/-- C4, counterexample to the claim as stated: in the text
`\begin{equation}*` the non-starred begin-marker occurs once, yet the
lookahead pattern rejects it and the starred pattern does not match it, so
the two per-variant counts sum to 0, not to the number of begin-markers. -/
theorem spec_C4_cex :
    ¬ ((eqFileCounts (some c4bad)).equation + (eqFileCounts (some c4bad)).equationStar
      = countTok eqLit c4bad + countTok eqStarLit c4bad) := by
  decide

/-- Witness for C4 on a text free of marker-followed-by-star occurrences. -/
theorem spec_C4_witness :
    (noOcc (eqLit ++ ['*']) c4good = true ∧ noOcc (alignLit ++ ['*']) c4good = true ∧
        noOcc (gatherLit ++ ['*']) c4good = true ∧ noOcc (multlineLit ++ ['*']) c4good = true) ∧
      (((eqFileCounts (some c4good)).equation + (eqFileCounts (some c4good)).equationStar
          = countTok eqLit c4good + countTok eqStarLit c4good) ∧
        ((eqFileCounts (some c4good)).align + (eqFileCounts (some c4good)).alignStar
          = countTok alignLit c4good + countTok alignStarLit c4good) ∧
        ((eqFileCounts (some c4good)).gather + (eqFileCounts (some c4good)).gatherStar
          = countTok gatherLit c4good + countTok gatherStarLit c4good) ∧
        ((eqFileCounts (some c4good)).multline + (eqFileCounts (some c4good)).multlineStar
          = countTok multlineLit c4good + countTok multlineStarLit c4good)) :=
  ⟨⟨by decide, by decide, by decide, by decide⟩,
    spec_C4 c4good (by decide) (by decide) (by decide) (by decide)⟩
